import Mathlib

/-!
Shallow embedding of the object-mapping and transaction layer of a local
database client (the Realm class of packages/realm/src/Realm.ts), together
with proofs of its specified behaviour.

The storage engine (the binding module) and the helpers imported from the
internal module (assert, validateConfiguration, normalization) are external
to the provided source file; wherever a definition stands for one of those,
its doc comment starts with the marker "Modelled from the spec:" and follows
the interface contract stated in the specification. Every other definition
is a direct transcription of the TypeScript source.
-/

set_option autoImplicit false

namespace RealmJS

/-- Error raised by the layer or surfaced from the engine. Each constructor
is one category of the specification error taxonomy; raise sites that throw
a plain Error with no taxonomy category use the generic constructor. Every
error carries its message. -/
inductive RError where
  | configurationError (msg : String)
  | illegalState (msg : String)
  | invalidatedObject (msg : String)
  | invalidArgument (msg : String)
  | notImplemented (msg : String)
  | schemaMismatch (msg : String)
  | typeAssertion (msg : String)
  | engine (msg : String)
  | generic (msg : String)
  deriving DecidableEq, Repr

/-! ## Transaction controller (write / begin / commit / cancel)

The engine session is modelled as a handle carrying the committed data, the
pending data of the open write transaction, and the transaction flag. The
data itself is an arbitrary type. -/

/-- State of one opened engine session as seen by the transaction
controller: the committed contents, and, while a write transaction is open,
the pending contents being mutated. -/
structure RealmHandle (δ : Type) where
  isInTransaction : Bool
  committed : δ
  pending : δ
  deriving DecidableEq, Repr

/-- Modelled from the spec: the engine operation behind
internal.beginTransaction. Idle goes to InTransaction, with the pending
contents initialised from the committed contents; fails when a transaction
is already open (no nesting). -/
def beginTransaction {δ : Type} (r : RealmHandle δ) : Except RError (RealmHandle δ) :=
  if r.isInTransaction then
    .error (.illegalState "The Realm is already in a write transaction")
  else
    .ok { isInTransaction := true, committed := r.committed, pending := r.committed }

/-- Modelled from the spec: the engine operation behind
internal.commitTransaction. InTransaction goes to Idle and the pending
contents become the committed contents; fails when no transaction is open. -/
def commitTransaction {δ : Type} (r : RealmHandle δ) : Except RError (RealmHandle δ) :=
  if r.isInTransaction then
    .ok { isInTransaction := false, committed := r.pending, pending := r.pending }
  else
    .error (.illegalState "Not in a write transaction")

/-- Modelled from the spec: the engine operation behind
internal.cancelTransaction. InTransaction goes to Idle and the pending
contents are discarded; fails when no transaction is open. -/
def cancelTransaction {δ : Type} (r : RealmHandle δ) : Except RError (RealmHandle δ) :=
  if r.isInTransaction then
    .ok { isInTransaction := false, committed := r.committed, pending := r.committed }
  else
    .error (.illegalState "Not in a write transaction")

/-- Transcribed from Realm.write. The callback closes over the handle and
mutates it through the open transaction; it is embedded as a state-passing
function on the pending contents that either raises an error of type E or
returns a value and the new pending contents. write begins a transaction,
runs the callback, cancels and re-raises on a callback error, and commits
and returns the value otherwise. The result pairs the outcome (an external
error from this layer, or the callback error, or the value) with the handle
state after the call. -/
def Realm.write {δ E V : Type} (r : RealmHandle δ) (cb : δ → Except E (V × δ)) :
    Except (RError ⊕ E) V × RealmHandle δ :=
  match beginTransaction r with
  | .error e => (.error (.inl e), r)
  | .ok r1 =>
    match cb r1.pending with
    | .error e =>
      match cancelTransaction r1 with
      | .ok r2 => (.error (.inr e), r2)
      | .error e2 => (.error (.inl e2), r1)
    | .ok (v, d) =>
      match commitTransaction { isInTransaction := r1.isInTransaction, committed := r1.committed, pending := d } with
      | .ok r3 => (.ok v, r3)
      | .error e2 => (.error (.inl e2), { isInTransaction := r1.isInTransaction, committed := r1.committed, pending := d })

/-! ## Configuration resolver (paths, schema mode, engine open parameters) -/

/-- Modelled from the spec: the file-system service of the platform layer
(fs in the source), reduced to the three operations the path resolver uses:
the process-wide default directory, the absolute-path test, and path
joining. -/
structure FileSystem where
  defaultDirectoryPath : String
  isAbsolutePath : String → Bool
  joinPaths : String → String → String

/-- The static default file name of Realm.defaultPath in the source. -/
def DEFAULT_FILE_NAME : String := "default.realm"

/-- Transcribed from the supplied-path branches of Realm.normalizePath:
an empty path fails, an absolute path is returned as-is, a relative path is
joined with the default directory. -/
def normalizePathSome (fs : FileSystem) (path : String) : Except RError String :=
  if path.length = 0 then
    .error (.generic "Unexpected empty path")
  else if fs.isAbsolutePath path then
    .ok path
  else
    .ok (fs.joinPaths fs.defaultDirectoryPath path)

/-- Transcribed from Realm.defaultPath, which the source initialises once to
Realm.normalizePath of the default file name. -/
def defaultPath (fs : FileSystem) : Except RError String :=
  normalizePathSome fs DEFAULT_FILE_NAME

/-- Transcribed from Realm.normalizePath: an absent path resolves to
Realm.defaultPath, otherwise the supplied-path branches apply. -/
def normalizePath (fs : FileSystem) : Option String → Except RError String
  | none => defaultPath fs
  | some path => normalizePathSome fs path

/-- A declared object schema entry of a configuration, reduced to its class
name; the declaration contents are normalized and validated by external
helpers and never inspected by the functions embedded here. -/
structure ObjectSchemaDecl where
  name : String
  deriving DecidableEq, Repr

/-- The database configuration record, with the fields the embedded
functions read. Optional fields absent from a configuration object are
none; schemaVersion is some exactly when a number was supplied. -/
structure Configuration where
  path : Option String
  schema : Option (List ObjectSchemaDecl)
  schemaVersion : Option Int
  encryptionKey : Option Unit
  inMemory : Bool
  readOnly : Bool
  deleteRealmIfMigrationNeeded : Bool
  shouldCompactOnLaunch : Option (Nat → Nat → Bool)
  fifoFilesFallbackPath : Option String
  disableFormatUpgrade : Option Bool

/-- Transcribed from Realm.determinePath: normalize the configured path. -/
def determinePath (fs : FileSystem) (config : Configuration) : Except RError String :=
  normalizePath fs config.path

/-- The engine schema modes the resolver can select. -/
inductive SchemaMode where
  | immutable
  | resetFile
  deriving DecidableEq, Repr

/-- Transcribed from Realm.determineSchemaMode: asserts that readOnly and
deleteRealmIfMigrationNeeded are not both set, then picks Immutable for
readOnly, ResetFile for deleteRealmIfMigrationNeeded, and no mode
otherwise. -/
def determineSchemaMode (config : Configuration) : Except RError (Option SchemaMode) :=
  if config.readOnly && config.deleteRealmIfMigrationNeeded then
    .error (.typeAssertion "Cannot set deleteRealmIfMigrationNeeded when readOnly is set.")
  else if config.readOnly then
    .ok (some .immutable)
  else if config.deleteRealmIfMigrationNeeded then
    .ok (some .resetFile)
  else
    .ok none

/-- Modelled from the spec: validateConfiguration lives in the internal
module, outside the provided sources. Per the specification it fails with a
ConfigurationError if mutually exclusive flags are both set, if path is an
empty string, or if schema entries fail schema validation; schema-entry
validation is itself external and is abstracted as a predicate argument. -/
def validateConfiguration (schemaOk : List ObjectSchemaDecl → Bool) (config : Configuration) :
    Except RError Unit :=
  if config.readOnly && config.deleteRealmIfMigrationNeeded then
    .error (.configurationError "Cannot set deleteRealmIfMigrationNeeded when readOnly is set.")
  else if config.path = some "" then
    .error (.configurationError "Unexpected empty path")
  else
    match config.schema with
    | some entries =>
      if schemaOk entries then .ok () else .error (.configurationError "Invalid schema")
    | none => .ok ()

/-- The engine open-parameter record built by Realm.transformConfig, with
the declared schema carried in the same reduced form the configuration
uses (the external toBindingSchema translation is the identity on it). -/
structure BindingRealmConfig where
  path : String
  fifoFilesFallbackPath : Option String
  schema : Option (List ObjectSchemaDecl)
  inMemory : Bool
  schemaMode : Option SchemaMode
  schemaVersion : Option Int
  shouldCompactOnLaunchFunction : Option (Nat → Nat → Bool)
  disableFormatUpgrade : Option Bool

/-- Transcribed from Realm.transformConfig: resolve the path, derive the
schema mode, and assemble the engine open parameters; the schema version is
the supplied number when a schema and a numeric version are both present,
zero when a schema is present without a numeric version, and unset when no
schema is present. -/
def transformConfig (fs : FileSystem) (config : Configuration)
    (normalizedSchema : Option (List ObjectSchemaDecl)) :
    Except RError BindingRealmConfig :=
  match determinePath fs config with
  | .error e => .error e
  | .ok path =>
    match determineSchemaMode config with
    | .error e => .error e
    | .ok schemaMode =>
      .ok {
        path := path
        fifoFilesFallbackPath := config.fifoFilesFallbackPath
        schema := normalizedSchema
        inMemory := config.inMemory
        schemaMode := schemaMode
        schemaVersion :=
          match config.schema with
          | some _ =>
            match config.schemaVersion with
            | some n => some n
            | none => some 0
          | none => none
        shouldCompactOnLaunchFunction := config.shouldCompactOnLaunch
        disableFormatUpgrade := config.disableFormatUpgrade }

/-! ## Static schemaVersion -/

/-- The engine sentinel for an unversioned file, 2 to the 64th minus one. -/
def NOT_VERSIONED : Nat := 18446744073709551615

/-- Transcribed from the static Realm.schemaVersion: rejects an encryption
key, resolves the path, reads the engine-reported version (the engine
getSchemaVersion call is abstracted as a function argument), and maps the
unversioned sentinel to minus one, converting the version to a number
otherwise. -/
def schemaVersionStatic (fs : FileSystem) (getSchemaVersion : String → Nat)
    (path : String) (encryptionKey : Option Unit) : Except RError Int :=
  match encryptionKey with
  | some _ => .error (.generic "Not yet supported")
  | none =>
    match normalizePath fs (some path) with
    | .error e => .error e
    | .ok absolutePath =>
      let schemaVersion := getSchemaVersion absolutePath
      if schemaVersion = NOT_VERSIONED then
        .ok (-1)
      else
        .ok (Int.ofNat schemaVersion)

/-! ## Object lifecycle: create -/

/-- The three-valued update mode enum of the typed API. -/
inductive UpdateMode where
  | never
  | modified
  | all
  deriving DecidableEq, Repr

/-- The untyped mode argument a caller may pass to create: a member of the
enum, a boolean shorthand, or any other value reaching the untyped API. -/
inductive UpdateModeArg where
  | mode (m : UpdateMode)
  | boolean (b : Bool)
  | other (tag : String)
  deriving DecidableEq, Repr

/-- The values argument of create: a plain values object, or a typed
RealmObject instance whose attached flag records whether it still has an
internal backing row. -/
inductive CreateValues where
  | plainObject (tag : String)
  | realmObjectValues (attached : Bool)
  deriving DecidableEq, Repr

/-- Whether the values argument is a RealmObject instance with no internal
backing row, the condition of the detached-instance check in create. -/
def CreateValues.detached : CreateValues → Bool
  | .plainObject _ => false
  | .realmObjectValues attached => !attached

/-- Transcribed from the validation prefix of Realm.create, everything up
to the first engine call: normalize the boolean mode shorthand, reject a
detached RealmObject values instance, reject a mode outside the enum, and
pass the normalized mode on. -/
def createPreflight (values : CreateValues) (modeArg : UpdateModeArg) :
    Except RError UpdateMode :=
  let normalized :=
    match modeArg with
    | .boolean true => UpdateModeArg.mode .all
    | .boolean false => UpdateModeArg.mode .never
    | m => m
  if values.detached then
    .error (.generic "Cannot create an object from a detached Realm.Object instance")
  else
    match normalized with
    | .mode m => .ok m
    | _ => .error (.invalidArgument "Unsupported updateMode. Only never, modified or all is supported.")

/-- Transcribed from Realm.create: run the validation prefix, then
internal.verifyOpen (the engine handle-open check, abstracted to the open
flag), then hand the normalized mode to the engine-side object creation
(class-helper resolution and RealmObject.create, abstracted as a function
argument). -/
def Realm.create {α : Type} (isOpen : Bool) (engineCreate : UpdateMode → Except RError α)
    (values : CreateValues) (modeArg : UpdateModeArg) : Except RError α :=
  match createPreflight values modeArg with
  | .error e => .error e
  | .ok m =>
    if isOpen then
      engineCreate m
    else
      .error (.illegalState "Cannot access realm that has been closed.")

/-! ## Object lifecycle: delete and deleteModel

The engine state is reduced to what these operations touch: the transaction
flag, the engine-reported schema (class names with their table keys), the
schema version, and the set of live rows as pairs of a table key and an
object key. -/

/-- One entry of the engine-reported schema: a class name and the key of
its physical table. -/
structure EObjectSchema where
  name : String
  tableKey : Nat
  deriving DecidableEq, Repr

/-- The slice of an opened engine session that delete, deleteModel and
their validations read and write. -/
structure RealmState where
  isInTransaction : Bool
  schema : List EObjectSchema
  schemaVersion : Nat
  rows : List (Nat × Nat)
  deriving DecidableEq, Repr

/-- Modelled from the spec: assert.inTransaction from the internal module
fails with an IllegalStateError when the handle is not in a write
transaction. -/
def assertInTransaction (r : RealmState) (msg : String) : Except RError Unit :=
  if r.isInTransaction then .ok () else .error (.illegalState msg)

/-- Modelled from the spec: table.removeObject at the engine boundary,
reduced to removing the addressed row from the live-row set. -/
def removeRow (rows : List (Nat × Nat)) (tableKey objKey : Nat) : List (Nat × Nat) :=
  rows.filter (fun row => !(row.1 == tableKey && row.2 == objKey))

/-- A typed object wrapper as delete sees it: the table key its class
helpers resolve to, the object key of its backing row, and the validity
flag assert.isValid consults. -/
structure RealmObjectModel where
  tableKey : Nat
  key : Nat
  isValid : Bool
  deriving DecidableEq, Repr

/-- One element of an array or iterable passed to delete: a RealmObject
instance, or any other value (which the per-item instanceOf assertion
rejects). -/
inductive DeleteItem where
  | realmObject (obj : RealmObjectModel)
  | notRealmObject (tag : String)
  deriving DecidableEq, Repr

/-- The subject argument of delete: a single RealmObject, an array or other
iterable of items, a non-iterable object of an unsupported shape, or a
non-object value (which the subject assertion rejects). -/
inductive DeleteSubject where
  | object (obj : RealmObjectModel)
  | collection (items : List DeleteItem)
  | otherObject (tag : String)
  | nonObject (tag : String)
  deriving DecidableEq, Repr

/-- Transcribed from the iteration branch of Realm.delete: each item is
asserted to be a RealmObject instance, its class helpers give the table,
and its row is removed; no validity check is made on the items. -/
def deleteItems : RealmState → List DeleteItem → Except RError RealmState
  | r, [] => .ok r
  | r, .realmObject obj :: rest =>
    deleteItems { r with rows := removeRow r.rows obj.tableKey obj.key } rest
  | _, .notRealmObject tag :: _ =>
    .error (.typeAssertion ("Expected object to be an instance of RealmObject, got " ++ tag))

/-- Transcribed from Realm.delete: require a transaction, require the
subject to be an object, then branch — a single RealmObject is checked to
be valid and its row removed, an array or iterable runs the per-item loop,
and any other object shape is not yet implemented. -/
def Realm.delete (r : RealmState) (subject : DeleteSubject) : Except RError RealmState :=
  match assertInTransaction r "Can only delete objects within a transaction." with
  | .error e => .error e
  | .ok _ =>
    match subject with
    | .nonObject tag =>
      .error (.typeAssertion ("Expected subject to be an object, got " ++ tag))
    | .object obj =>
      if obj.isValid then
        .ok { r with rows := removeRow r.rows obj.tableKey obj.key }
      else
        .error (.invalidatedObject "Object is invalid. Either it has been previously deleted or the Realm it belongs to has been closed.")
    | .collection items => deleteItems r items
    | .otherObject _ => .error (.notImplemented "Not yet implemented")

/-- Modelled from the spec: binding.Helpers.deleteDataForObject at the
engine boundary removes all row data of the named class, failing with an
engine error when the class is not in the schema. -/
def deleteDataForObject (r : RealmState) (name : String) : Except RError RealmState :=
  match r.schema.find? (fun os => os.name == name) with
  | some os => .ok { r with rows := r.rows.filter (fun row => !(row.1 == os.tableKey)) }
  | none => .error (.engine ("Object type " ++ name ++ " not found in schema."))

/-- Modelled from the spec: internal.updateSchema at the engine boundary
installs the given schema as the current one at the given version. -/
def updateSchema (r : RealmState) (newSchema : List EObjectSchema) (newVersion : Nat) :
    Except RError RealmState :=
  .ok { r with schema := newSchema, schemaVersion := newVersion }

/-- Transcribed from Realm.deleteModel: require a transaction, delete all
data of the named class, and re-apply the engine schema filtered to the
other classes at the incremented schema version. -/
def Realm.deleteModel (r : RealmState) (name : String) : Except RError RealmState :=
  match assertInTransaction r "Can only delete objects within a transaction." with
  | .error e => .error e
  | .ok _ =>
    match deleteDataForObject r name with
    | .error e => .error e
    | .ok r1 =>
      let newSchema := r1.schema.filter (fun os => !(os.name == name))
      updateSchema r1 newSchema (r1.schemaVersion + 1)

/-! ## Object lifecycle: objectForPrimaryKey

The class helpers and the table of the resolved class are bundled into an
environment: the key type K, its engine encoding B, the raw row type O and
the wrapped object type W are parameters, and the engine lookups return
either a value or an engine error message. -/

/-- The class helpers and engine table operations objectForPrimaryKey uses
for one resolved class: the class name, its declared primary-key property
if any, the property encoder, the engine key lookup and row fetch, the row
wrapper, and the printer used in the remapped not-found message. -/
structure PkLookupEnv (K B O W : Type) where
  className : String
  primaryKeyProp : Option String
  toBinding : K → B
  findPrimaryKey : B → Except String Int
  getObject : Int → Except String O
  wrapObject : O → W
  keyString : K → String

/-- The prefix test on strings, as the JS startsWith used by the catch
block of objectForPrimaryKey: true when the second string is a leading
prefix of the first, decided character by character. -/
def strStartsWith (s pre : String) : Bool :=
  pre.data.isPrefixOf s.data

/-- Transcribed from the catch block of Realm.objectForPrimaryKey: an
engine error whose message starts with the no-object-with-key pattern is
remapped to a descriptive error, every other error is re-raised
unchanged. -/
def pkRemapError {K B O W : Type} (env : PkLookupEnv K B O W) (primaryKey : K)
    (msg : String) : RError :=
  if strStartsWith msg "No object with key" then
    .generic ("No " ++ env.className ++ " with key " ++ env.keyString primaryKey)
  else
    .engine msg

/-- Transcribed from Realm.objectForPrimaryKey: fail when the class
declares no primary key, encode the key, look it up in the table, return
absence on the minus-one sentinel, fetch and wrap the row otherwise, and
filter engine errors through the catch-block remapping. -/
def objectForPrimaryKey {K B O W : Type} (env : PkLookupEnv K B O W) (primaryKey : K) :
    Except RError (Option W) :=
  match env.primaryKeyProp with
  | none => .error (.schemaMismatch ("Expected a primary key on " ++ env.className))
  | some _ =>
    let value := env.toBinding primaryKey
    match env.findPrimaryKey value with
    | .error msg => .error (pkRemapError env primaryKey msg)
    | .ok objKey =>
      if objKey = -1 then
        .ok none
      else
        match env.getObject objKey with
        | .error msg => .error (pkRemapError env primaryKey msg)
        | .ok obj => .ok (some (env.wrapObject obj))

/-! ## createTemplateObject -/

/-- The property type names a normalized property schema can carry, as the
template switch distinguishes them; the shapes the switch has no case for
(links, lists, sets, dictionaries and the other non-primitive or
non-defaultable types) are listed explicitly. -/
inductive PropertyTypeName where
  | bool
  | int
  | float
  | double
  | string
  | data
  | date
  | objectId
  | uuid
  | decimal128
  | mixed
  | list
  | set
  | dictionary
  | object
  | linkingObjects
  deriving DecidableEq, Repr

/-- A value a template object property can hold: the primitive defaults
the switch produces, and opaque values coming from a declared default. -/
inductive JSValue where
  | jsBool (b : Bool)
  | jsNumber (n : Int)
  | jsString (s : String)
  | jsArrayBuffer (byteLength : Nat)
  | jsDate (msSinceEpoch : Int)
  | opaqueValue (tag : String)
  deriving DecidableEq, Repr

/-- One normalized property schema as the template loop reads it: its type
name, its optionality, and its declared default value if any. -/
structure CanonicalPropertySchema where
  type : PropertyTypeName
  optional : Bool
  default : Option JSValue
  deriving DecidableEq, Repr

/-- Transcribed from the body of the createTemplateObject loop for one
property: a declared default is always used, an optional property without
one is skipped, and a required property gets the type default of the
switch, whose cases cover exactly the primitive types. -/
def templateValue (property : CanonicalPropertySchema) : Option JSValue :=
  match property.default with
  | some d => some d
  | none =>
    if property.optional then
      none
    else
      match property.type with
      | .bool => some (.jsBool false)
      | .int => some (.jsNumber 0)
      | .float => some (.jsNumber 0)
      | .double => some (.jsNumber 0)
      | .string => some (.jsString "")
      | .data => some (.jsArrayBuffer 0)
      | .date => some (.jsDate 0)
      | _ => none

/-- Transcribed from Realm.createTemplateObject over an already-normalized
property map (schema validation and normalization are external helpers):
the loop walks the properties in declaration order and inserts the entries
the per-property body produces. -/
def createTemplateObject (properties : List (String × CanonicalPropertySchema)) :
    List (String × JSValue) :=
  properties.foldl
    (fun result kp =>
      match templateValue kp.2 with
      | some v => result ++ [(kp.1, v)]
      | none => result)
    []

/-! ## Shared helper lemmas and concrete instances -/

/-- A nonempty string has nonzero length. -/
theorem length_ne_zero_of_ne_empty (p : String) (h : p ≠ "") : ¬ p.length = 0 := by
  intro h0
  apply h
  cases p with
  | mk data =>
    simp [String.length] at h0
    simp [h0]

/-- A concrete file-system instance with a posix-style absolute-path test
and separator join, used to instantiate the path theorems. -/
def posixFs : FileSystem where
  defaultDirectoryPath := "/data"
  isAbsolutePath := fun s => s.data.head? == some '/'
  joinPaths := fun a b => a ++ "/" ++ b

/-- The iteration branch of delete over a list of RealmObject items removes
the row of every item in order and touches nothing else. -/
theorem deleteItems_map_realmObject (objs : List RealmObjectModel) (r : RealmState) :
    deleteItems r (objs.map DeleteItem.realmObject) =
      .ok { r with rows := objs.foldl (fun rows obj => removeRow rows obj.tableKey obj.key) r.rows } := by
  induction objs generalizing r with
  | nil => rfl
  | cons o rest ih => simp [deleteItems, ih]

/-! ## Claim theorems -/

/-- C1: write first begins a transaction and runs the callback on the
transaction contents; if the callback raises an error the transaction is
cancelled and the same error is re-raised, leaving the handle Idle with the
committed contents untouched (no partial commit); if the callback returns a
value the transaction is committed and write returns that value. -/
theorem c1_write_transaction_semantics {δ E V : Type} (r : RealmHandle δ)
    (cb : δ → Except E (V × δ)) (h : r.isInTransaction = false) :
    (∀ e, cb r.committed = .error e →
      Realm.write r cb =
        (.error (.inr e),
         { isInTransaction := false, committed := r.committed, pending := r.committed })) ∧
    (∀ v d, cb r.committed = .ok (v, d) →
      Realm.write r cb =
        (.ok v, { isInTransaction := false, committed := d, pending := d })) := by
  constructor
  · intro e he
    simp [Realm.write, beginTransaction, cancelTransaction, h, he]
  · intro v d hvd
    simp [Realm.write, beginTransaction, commitTransaction, h, hvd]

/-- A concrete write callback for the C1 witness: returns seven and adds
five to the transaction contents. -/
def writeWitnessCb : Nat → Except Nat (Nat × Nat) :=
  fun d => Except.ok (7, d + 5)

/-- Witness for C1 at a concrete Idle handle and returning callback. -/
theorem c1_write_transaction_semantics_witness :
    Realm.write { isInTransaction := false, committed := 0, pending := 0 } writeWitnessCb =
      (Except.ok 7, { isInTransaction := false, committed := 5, pending := 5 }) :=
  (c1_write_transaction_semantics
      { isInTransaction := false, committed := 0, pending := 0 } writeWitnessCb rfl).2 7 5 rfl

/-- C2: determinePath returns an absolute non-empty path unchanged, joins a
relative non-empty path with the process-wide default directory, resolves an
absent path to the default file name joined with the default directory, and
fails on the empty path. -/
theorem c2_determinePath_resolution (fs : FileSystem) (config : Configuration) :
    (∀ p, config.path = some p → p ≠ "" → fs.isAbsolutePath p = true →
      determinePath fs config = .ok p) ∧
    (∀ p, config.path = some p → p ≠ "" → fs.isAbsolutePath p = false →
      determinePath fs config = .ok (fs.joinPaths fs.defaultDirectoryPath p)) ∧
    (config.path = none → fs.isAbsolutePath DEFAULT_FILE_NAME = false →
      determinePath fs config = .ok (fs.joinPaths fs.defaultDirectoryPath DEFAULT_FILE_NAME)) ∧
    (config.path = some "" →
      determinePath fs config = .error (.generic "Unexpected empty path")) := by
  refine ⟨?_, ?_, ?_, ?_⟩
  · intro p hp hne habs
    simp [determinePath, normalizePath, hp, normalizePathSome,
      length_ne_zero_of_ne_empty p hne, habs]
  · intro p hp hne habs
    simp [determinePath, normalizePath, hp, normalizePathSome,
      length_ne_zero_of_ne_empty p hne, habs]
  · intro hp habs
    have hlen : ¬ DEFAULT_FILE_NAME.length = 0 := by decide
    simp [determinePath, normalizePath, hp, defaultPath, normalizePathSome, hlen, habs]
  · intro hp
    simp [determinePath, normalizePath, hp, normalizePathSome]

/-- A configuration carrying only a relative path, for the C2 witness. -/
def relPathConfig : Configuration where
  path := some "mine.realm"
  schema := none
  schemaVersion := none
  encryptionKey := none
  inMemory := false
  readOnly := false
  deleteRealmIfMigrationNeeded := false
  shouldCompactOnLaunch := none
  fifoFilesFallbackPath := none
  disableFormatUpgrade := none

/-- Witness for C2: a relative path joins with the default directory. -/
theorem c2_determinePath_resolution_witness :
    determinePath posixFs relPathConfig = .ok "/data/mine.realm" :=
  (c2_determinePath_resolution posixFs relPathConfig).2.1 "mine.realm" rfl (by decide) rfl

/-- C3 counterexample: inside a transaction, delete of a one-element
sequence holding an invalidated typed object raises nothing and removes the
row, while the single-object branch raises an InvalidatedObjectError on the
same object — refuting the claim that a sequence receives the same
attachment validation on every item before each removal. -/
theorem c3_sequence_validation_counterexample :
    Realm.delete
        { isInTransaction := true, schema := [], schemaVersion := 0, rows := [(0, 5)] }
        (.collection [.realmObject { tableKey := 0, key := 5, isValid := false }]) =
      .ok { isInTransaction := true, schema := [], schemaVersion := 0, rows := [] } ∧
    Realm.delete
        { isInTransaction := true, schema := [], schemaVersion := 0, rows := [(0, 5)] }
        (.object { tableKey := 0, key := 5, isValid := false }) =
      .error (.invalidatedObject "Object is invalid. Either it has been previously deleted or the Realm it belongs to has been closed.") :=
  ⟨rfl, rfl⟩

/-- C3 as amended: delete fails with an IllegalStateError whenever the
handle is not InTransaction; when InTransaction, a single typed object is
validated as still attached (raising InvalidatedObjectError otherwise)
before its row is removed; an ordered sequence of typed objects has each
item checked to be a typed object but receives no attachment validation —
each row is removed directly; and an unsupported subject shape raises
NotImplementedError. -/
theorem c3_delete_validation (r : RealmState) (subject : DeleteSubject) :
    (r.isInTransaction = false →
      Realm.delete r subject =
        .error (.illegalState "Can only delete objects within a transaction.")) ∧
    (r.isInTransaction = true →
      (∀ obj, subject = .object obj → obj.isValid = false →
        Realm.delete r subject =
          .error (.invalidatedObject "Object is invalid. Either it has been previously deleted or the Realm it belongs to has been closed.")) ∧
      (∀ obj, subject = .object obj → obj.isValid = true →
        Realm.delete r subject =
          .ok { r with rows := removeRow r.rows obj.tableKey obj.key }) ∧
      (∀ objs : List RealmObjectModel, subject = .collection (objs.map DeleteItem.realmObject) →
        Realm.delete r subject =
          .ok { r with rows := objs.foldl (fun rows obj => removeRow rows obj.tableKey obj.key) r.rows }) ∧
      (∀ tag, subject = .otherObject tag →
        Realm.delete r subject = .error (.notImplemented "Not yet implemented"))) := by
  constructor
  · intro h
    simp [Realm.delete, assertInTransaction, h]
  · intro h
    refine ⟨?_, ?_, ?_, ?_⟩
    · intro obj hs hvalid
      simp [Realm.delete, assertInTransaction, h, hs, hvalid]
    · intro obj hs hvalid
      simp [Realm.delete, assertInTransaction, h, hs, hvalid]
    · intro objs hs
      simp [Realm.delete, assertInTransaction, h, hs, deleteItems_map_realmObject]
    · intro tag hs
      simp [Realm.delete, assertInTransaction, h, hs]

/-- Witness for C3 (amended): outside a transaction, delete fails with the
IllegalStateError message. -/
theorem c3_delete_validation_witness :
    Realm.delete { isInTransaction := false, schema := [], schemaVersion := 0, rows := [] }
        (.otherObject "resultsView") =
      .error (.illegalState "Can only delete objects within a transaction.") :=
  (c3_delete_validation
      { isInTransaction := false, schema := [], schemaVersion := 0, rows := [] }
      (.otherObject "resultsView")).1 rfl

/-- C4: create normalizes the boolean updateMode shorthand (true behaves as
All, false as Never) before use; a mode outside the enum raises an
InvalidArgumentError; and a detached RealmObject values instance raises an
error before any engine call — the outcome is the same error for every
open flag, engine continuation and mode argument. -/
theorem c4_create_updateMode {α : Type} (isOpen : Bool)
    (engineCreate : UpdateMode → Except RError α) (values : CreateValues) :
    (Realm.create isOpen engineCreate values (.boolean true) =
        Realm.create isOpen engineCreate values (.mode .all) ∧
      Realm.create isOpen engineCreate values (.boolean false) =
        Realm.create isOpen engineCreate values (.mode .never)) ∧
    (values.detached = false → ∀ tag,
      Realm.create isOpen engineCreate values (.other tag) =
        .error (.invalidArgument "Unsupported updateMode. Only never, modified or all is supported.")) ∧
    (values.detached = true → ∀ modeArg,
      Realm.create isOpen engineCreate values modeArg =
        .error (.generic "Cannot create an object from a detached Realm.Object instance")) := by
  refine ⟨⟨rfl, rfl⟩, ?_, ?_⟩
  · intro hdet tag
    simp [Realm.create, createPreflight, hdet]
  · intro hdet modeArg
    cases modeArg with
    | mode m => simp [Realm.create, createPreflight, hdet]
    | boolean b => cases b <;> simp [Realm.create, createPreflight, hdet]
    | other tag => simp [Realm.create, createPreflight, hdet]

/-- Witness for C4: a mode value outside the enum is rejected with the
unsupported-updateMode error even on an open handle. -/
theorem c4_create_updateMode_witness :
    Realm.create true (fun _ => Except.ok 1) (.plainObject "values") (.other "bogus") =
      .error (.invalidArgument "Unsupported updateMode. Only never, modified or all is supported.") :=
  (c4_create_updateMode true (fun _ => Except.ok 1) (.plainObject "values")).2.1 rfl "bogus"

/-- C5: for a class name present in the schema, deleteModel requires
InTransaction (IllegalStateError otherwise), removes all row data of that
class, and re-applies the schema as the previous set minus that class at
exactly the incremented schema version. -/
theorem c5_deleteModel_schema_bump (r : RealmState) (name : String) (os : EObjectSchema)
    (hfind : r.schema.find? (fun o => o.name == name) = some os) :
    (r.isInTransaction = false →
      Realm.deleteModel r name =
        .error (.illegalState "Can only delete objects within a transaction.")) ∧
    (r.isInTransaction = true →
      Realm.deleteModel r name =
        .ok { isInTransaction := true
              schema := r.schema.filter (fun o => !(o.name == name))
              schemaVersion := r.schemaVersion + 1
              rows := r.rows.filter (fun row => !(row.1 == os.tableKey)) }) := by
  constructor
  · intro h
    simp [Realm.deleteModel, assertInTransaction, h]
  · intro h
    simp [Realm.deleteModel, assertInTransaction, h, deleteDataForObject, hfind, updateSchema]

/-- Witness for C5 at a one-class schema with rows in two tables. -/
theorem c5_deleteModel_schema_bump_witness :
    Realm.deleteModel
        { isInTransaction := true, schema := [{ name := "Dog", tableKey := 3 }],
          schemaVersion := 7, rows := [(3, 1), (4, 2)] } "Dog" =
      .ok { isInTransaction := true, schema := [], schemaVersion := 8, rows := [(4, 2)] } :=
  (c5_deleteModel_schema_bump
      { isInTransaction := true, schema := [{ name := "Dog", tableKey := 3 }],
        schemaVersion := 7, rows := [(3, 1), (4, 2)] }
      "Dog" { name := "Dog", tableKey := 3 } rfl).2 rfl

/-- C6: objectForPrimaryKey fails with a SchemaMismatchError when the class
declares no primary key; otherwise it encodes the key, performs the table
lookup, returns absence on the not-found sentinel, wraps and returns the
row when found, and propagates generic lookup errors unchanged. -/
theorem c6_objectForPrimaryKey_lookup {K B O W : Type} (env : PkLookupEnv K B O W) (k : K) :
    (env.primaryKeyProp = none →
      objectForPrimaryKey env k =
        .error (.schemaMismatch ("Expected a primary key on " ++ env.className))) ∧
    (env.primaryKeyProp.isSome = true →
      (env.findPrimaryKey (env.toBinding k) = .ok (-1) →
        objectForPrimaryKey env k = .ok none) ∧
      (∀ j o, env.findPrimaryKey (env.toBinding k) = .ok j → ¬ j = -1 →
        env.getObject j = .ok o →
        objectForPrimaryKey env k = .ok (some (env.wrapObject o))) ∧
      (∀ msg, env.findPrimaryKey (env.toBinding k) = .error msg →
        strStartsWith msg "No object with key" = false →
        objectForPrimaryKey env k = .error (.engine msg))) := by
  constructor
  · intro h
    simp [objectForPrimaryKey, h]
  · intro hsome
    cases hpk : env.primaryKeyProp with
    | none => rw [hpk] at hsome; cases hsome
    | some pk =>
      refine ⟨?_, ?_, ?_⟩
      · intro hfind
        simp [objectForPrimaryKey, hpk, hfind]
      · intro j o hfind hne hget
        simp [objectForPrimaryKey, hpk, hfind, hne, hget]
      · intro msg hfind hsw
        simp [objectForPrimaryKey, hpk, hfind, pkRemapError, hsw]

/-- A concrete primary-key lookup environment for the C6 witness: the key
encodes to itself, the table reports the key itself as the object key, and
row forty-two is returned. -/
def pkWitnessEnv : PkLookupEnv Nat Nat Nat Nat where
  className := "Person"
  primaryKeyProp := some "id"
  toBinding := fun k => k
  findPrimaryKey := fun b => Except.ok (Int.ofNat b)
  getObject := fun _ => Except.ok 42
  wrapObject := fun o => o
  keyString := fun k => toString k

/-- Witness for C6: a found key wraps and returns the row. -/
theorem c6_objectForPrimaryKey_lookup_witness :
    objectForPrimaryKey pkWitnessEnv 3 = .ok (some 42) :=
  ((c6_objectForPrimaryKey_lookup pkWitnessEnv 3).2 rfl).2.1 3 42 rfl (by decide) rfl

/-- C7: a configuration with readOnly and deleteRealmIfMigrationNeeded both
set fails validation with a ConfigurationError, and the engine open
parameters can never be produced for it — transformConfig fails for every
file system and normalized schema, so no such configuration reaches the
storage engine. -/
theorem c7_readOnly_deleteRealm_exclusive (schemaOk : List ObjectSchemaDecl → Bool)
    (config : Configuration) (h1 : config.readOnly = true)
    (h2 : config.deleteRealmIfMigrationNeeded = true) :
    validateConfiguration schemaOk config =
      .error (.configurationError "Cannot set deleteRealmIfMigrationNeeded when readOnly is set.") ∧
    ∀ fs normalizedSchema, ∃ e, transformConfig fs config normalizedSchema = .error e := by
  constructor
  · simp [validateConfiguration, h1, h2]
  · intro fs normalizedSchema
    cases hdp : determinePath fs config with
    | error e => exact ⟨e, by simp [transformConfig, hdp]⟩
    | ok path =>
      exact ⟨.typeAssertion "Cannot set deleteRealmIfMigrationNeeded when readOnly is set.",
        by simp [transformConfig, hdp, determineSchemaMode, h1, h2]⟩

/-- A configuration setting both mutually exclusive flags, for the C7
witness. -/
def conflictingConfig : Configuration where
  path := none
  schema := none
  schemaVersion := none
  encryptionKey := none
  inMemory := false
  readOnly := true
  deleteRealmIfMigrationNeeded := true
  shouldCompactOnLaunch := none
  fifoFilesFallbackPath := none
  disableFormatUpgrade := none

/-- Witness for C7 at the concrete conflicting configuration. -/
theorem c7_readOnly_deleteRealm_exclusive_witness :
    validateConfiguration (fun _ => true) conflictingConfig =
      .error (.configurationError "Cannot set deleteRealmIfMigrationNeeded when readOnly is set.") :=
  (c7_readOnly_deleteRealm_exclusive (fun _ => true) conflictingConfig rfl rfl).1

/-- C8: the static schemaVersion returns minus one exactly when the engine
reports the unversioned sentinel (two to the sixty-fourth minus one), and
otherwise returns the engine-reported version converted to a number. -/
theorem c8_schemaVersion_sentinel (fs : FileSystem) (g : String → Nat) (path : String)
    (absolutePath : String) (habs : normalizePath fs (some path) = .ok absolutePath) :
    ((schemaVersionStatic fs g path none = .ok (-1)) ↔ g absolutePath = NOT_VERSIONED) ∧
    (¬ g absolutePath = NOT_VERSIONED →
      schemaVersionStatic fs g path none = .ok (Int.ofNat (g absolutePath))) := by
  have hunf : schemaVersionStatic fs g path none =
      (if g absolutePath = NOT_VERSIONED then .ok (-1)
       else .ok (Int.ofNat (g absolutePath))) := by
    simp [schemaVersionStatic, habs]
  constructor
  · rw [hunf]
    by_cases hg : g absolutePath = NOT_VERSIONED
    · simp [hg]
    · rw [if_neg hg]
      constructor
      · intro hcontra
        rw [Except.ok.injEq] at hcontra
        exact absurd hcontra (by simp)
      · intro h
        exact absurd h hg
  · intro hne
    rw [hunf, if_neg hne]

/-- Witness for C8: an engine reporting the sentinel yields minus one. -/
theorem c8_schemaVersion_sentinel_witness :
    schemaVersionStatic posixFs (fun _ => NOT_VERSIONED) "local.realm" none = .ok (-1) :=
  ((c8_schemaVersion_sentinel posixFs (fun _ => NOT_VERSIONED) "local.realm"
      "/data/local.realm" rfl).1).mpr rfl

/-- The template loop with an arbitrary accumulator collects, after the
accumulator, exactly the entries the per-property body produces, in
declaration order. -/
theorem template_foldl_append (props : List (String × CanonicalPropertySchema))
    (acc : List (String × JSValue)) :
    props.foldl
        (fun result kp =>
          match templateValue kp.2 with
          | some v => result ++ [(kp.1, v)]
          | none => result)
        acc =
      acc ++ props.filterMap (fun kp => (templateValue kp.2).map (fun v => (kp.1, v))) := by
  induction props generalizing acc with
  | nil => simp
  | cons kp rest ih =>
    cases h : templateValue kp.2 with
    | none => simp [List.foldl_cons, List.filterMap_cons, h, ih]
    | some v => simp [List.foldl_cons, List.filterMap_cons, h, ih]

/-- createTemplateObject is the filterMap of the per-property body over the
normalized properties. -/
theorem createTemplateObject_eq_filterMap (props : List (String × CanonicalPropertySchema)) :
    createTemplateObject props =
      props.filterMap (fun kp => (templateValue kp.2).map (fun v => (kp.1, v))) := by
  unfold createTemplateObject
  simpa using template_foldl_append props []

/-- A key absent from the property names is absent from the template. -/
theorem lookup_templateEntries_of_not_mem (props : List (String × CanonicalPropertySchema))
    (key : String) (h : ¬ key ∈ props.map Prod.fst) :
    (props.filterMap (fun kp => (templateValue kp.2).map (fun v => (kp.1, v)))).lookup key =
      none := by
  induction props with
  | nil => rfl
  | cons kp rest ih =>
    have hne : ¬ key = kp.1 := by
      intro hcontra
      exact h (by simp [hcontra])
    have htl : ¬ key ∈ rest.map Prod.fst := fun hm => h (by simp [hm])
    have hbeq : (key == kp.1) = false := by simp [hne]
    cases hv : templateValue kp.2 with
    | none => simp [List.filterMap_cons, hv, ih htl]
    | some v => simp [List.filterMap_cons, hv, List.lookup, hbeq, ih htl]

/-- Looking up a declared property in the template yields exactly the value
the per-property body assigns to it, provided property names are unique (as
they are in a normalized property map). -/
theorem createTemplateObject_lookup (props : List (String × CanonicalPropertySchema))
    (hnodup : (props.map Prod.fst).Nodup) (key : String) (prop : CanonicalPropertySchema)
    (hmem : (key, prop) ∈ props) :
    (createTemplateObject props).lookup key = templateValue prop := by
  rw [createTemplateObject_eq_filterMap]
  induction props with
  | nil => cases hmem
  | cons kp rest ih =>
    rcases List.mem_cons.mp hmem with heq | hmemtl
    · subst heq
      have hkey : ¬ key ∈ rest.map Prod.fst := by
        rw [List.map_cons, List.nodup_cons] at hnodup
        exact hnodup.1
      cases hv : templateValue prop with
      | some v => simp [List.filterMap_cons, hv, List.lookup]
      | none =>
        simp only [List.filterMap_cons, hv, Option.map_none']
        exact lookup_templateEntries_of_not_mem rest key hkey
    · have hnodtl : (rest.map Prod.fst).Nodup := by
        rw [List.map_cons, List.nodup_cons] at hnodup
        exact hnodup.2
      have hhd : ¬ kp.1 ∈ rest.map Prod.fst := by
        rw [List.map_cons, List.nodup_cons] at hnodup
        exact hnodup.1
      have hne : ¬ key = kp.1 := by
        intro hcontra
        apply hhd
        rw [← hcontra]
        exact List.mem_map.mpr ⟨(key, prop), hmemtl, rfl⟩
      have hbeq : (key == kp.1) = false := by simp [hne]
      cases hv : templateValue kp.2 with
      | none => simp only [List.filterMap_cons, hv, Option.map_none]; exact ih hnodtl hmemtl
      | some v =>
        simp only [List.filterMap_cons, hv, Option.map_some, List.lookup, hbeq]
        exact ih hnodtl hmemtl

/-- C9: in the template object of a normalized object schema, every
property with an explicitly declared default is set to that default, every
remaining optional property is omitted, every remaining required property
of a primitive type gets its type default — false for bool, zero for int,
float and double, the empty string for string, an empty buffer for data and
the epoch date for date — and list and link properties are omitted. -/
theorem c9_template_defaults (props : List (String × CanonicalPropertySchema))
    (hnodup : (props.map Prod.fst).Nodup) (key : String) (prop : CanonicalPropertySchema)
    (hmem : (key, prop) ∈ props) :
    (createTemplateObject props).lookup key =
      (match prop.default with
       | some d => some d
       | none =>
         if prop.optional then
           none
         else
           match prop.type with
           | .bool => some (.jsBool false)
           | .int => some (.jsNumber 0)
           | .float => some (.jsNumber 0)
           | .double => some (.jsNumber 0)
           | .string => some (.jsString "")
           | .data => some (.jsArrayBuffer 0)
           | .date => some (.jsDate 0)
           | _ => none) := by
  have h := createTemplateObject_lookup props hnodup key prop hmem
  rw [h]
  cases hd : prop.default with
  | some d => simp [templateValue, hd]
  | none =>
    cases ho : prop.optional with
    | true => simp [templateValue, hd, ho]
    | false => cases ht : prop.type <;> simp [templateValue, hd, ho, ht]

/-- Witness for C9: a required int property without a declared default is
set to zero. -/
theorem c9_template_defaults_witness :
    (createTemplateObject
        [("age", { type := .int, optional := false, default := none })]).lookup "age" =
      some (.jsNumber 0) :=
  c9_template_defaults
    [("age", { type := .int, optional := false, default := none })]
    (by decide) "age" { type := .int, optional := false, default := none } (by decide)

/-- C10: when a configuration supplies a schema but no numeric
schemaVersion, the resolved engine open parameters carry schema version
zero; when it supplies both, the version is passed through; when no schema
is supplied, the schema version field is left unset regardless of any
schemaVersion value. -/
theorem c10_transformConfig_schemaVersion (fs : FileSystem) (config : Configuration)
    (normalizedSchema : Option (List ObjectSchemaDecl)) (bc : BindingRealmConfig)
    (hok : transformConfig fs config normalizedSchema = .ok bc) :
    (config.schema = none → bc.schemaVersion = none) ∧
    (∀ s, config.schema = some s → config.schemaVersion = none → bc.schemaVersion = some 0) ∧
    (∀ s v, config.schema = some s → config.schemaVersion = some v →
      bc.schemaVersion = some v) := by
  cases hdp : determinePath fs config with
  | error e => simp [transformConfig, hdp] at hok
  | ok path =>
    cases hsm : determineSchemaMode config with
    | error e => simp [transformConfig, hdp, hsm] at hok
    | ok mode =>
      simp only [transformConfig, hdp, hsm, Except.ok.injEq] at hok
      subst hok
      refine ⟨?_, ?_, ?_⟩
      · intro hs
        simp [hs]
      · intro s hs hv
        simp [hs, hv]
      · intro s v hs hv
        simp [hs, hv]

/-- A configuration supplying an empty schema list and no schemaVersion,
for the C10 witness. -/
def schemaOnlyConfig : Configuration where
  path := none
  schema := some []
  schemaVersion := none
  encryptionKey := none
  inMemory := false
  readOnly := false
  deleteRealmIfMigrationNeeded := false
  shouldCompactOnLaunch := none
  fifoFilesFallbackPath := none
  disableFormatUpgrade := none

/-- The engine open parameters transformConfig resolves for the schema-only
configuration. -/
def schemaOnlyBindingConfig : BindingRealmConfig where
  path := "/data/default.realm"
  fifoFilesFallbackPath := none
  schema := none
  inMemory := false
  schemaMode := none
  schemaVersion := some 0
  shouldCompactOnLaunchFunction := none
  disableFormatUpgrade := none

/-- Witness for C10: a schema without a numeric version resolves to schema
version zero. -/
theorem c10_transformConfig_schemaVersion_witness :
    schemaOnlyBindingConfig.schemaVersion = some 0 :=
  (c10_transformConfig_schemaVersion posixFs schemaOnlyConfig none
      schemaOnlyBindingConfig rfl).2.1 [] rfl rfl

end RealmJS
